import Mathlib

/-!
Verification development for the AWS resource monitor
(src/Resource-Finder/main.py): a shallow embedding of the resource
classification and scoring engine, together with theorems settling the
specification claims about it.

Modelling conventions:
* Python floats are modelled as rationals; all thresholds and the table
  entries are exact decimals, so no comparison in the embedded code
  depends on binary rounding.
* Python dicts appearing in descriptors (tags, compliance map) are
  modelled as association lists with the keys understood to be unique.
* A fallible provider call (wrapped in try/except in the source) is
  modelled as an Except value: Except.error for a raised call,
  Except.ok for a call that returned.
* Display strings that the source builds with f-strings and that no
  decision logic re-reads are kept structured (see UsageSummary and
  CostEstimate); every constructor corresponds to exactly one source
  string, noted at the definition.
-/

/-! ### String utilities

The source uses Python substring tests (the in operator) on descriptor
fields.  listHasSubseg p s decides whether p occurs contiguously in s. -/

def listHasPrefixSeg : List Char → List Char → Bool
  | [], _ => true
  | _ :: _, [] => false
  | a :: as, b :: bs => a == b && listHasPrefixSeg as bs

def listHasSubseg (p : List Char) : List Char → Bool
  | [] => p.isEmpty
  | c :: rest => listHasPrefixSeg p (c :: rest) || listHasSubseg p rest

/-- Model of the Python expression pat in s (substring containment). -/
def strContains (s pat : String) : Bool :=
  listHasSubseg pat.data s.data

/-! ### Resource descriptor

Model of the ResourceInfo dataclass (main.py lines 30-69).  Field types
follow the dataclass; dict-valued fields become association lists and
float-valued fields become rationals.  All fields carry the dataclass
defaults (the first ten are required positionally in Python; giving them
Lean defaults does not change any embedded computation). -/

structure ResourceInfo where
  resource_type : String := ""
  resource_id : String := ""
  resource_name : String := ""
  created_time : String := ""
  created_by : String := ""
  state : String := ""
  tags : List (String × String) := []
  usage_info : String := ""
  estimated_cost : String := ""
  region : String := ""
  vpc_id : String := ""
  subnet_id : String := ""
  instance_type : String := ""
  is_unused : Bool := false
  is_new : Bool := false
  additional_info : String := ""
  security_groups : List String := []
  public_ip : String := ""
  private_ip : String := ""
  last_accessed : String := ""
  compliance_status : List (String × Bool) := []
  cost_optimization_suggestions : List String := []
  risk_level : String := "Low"
  environment : String := ""
  owner_email : String := ""
  department : String := ""
  project : String := ""
  backup_status : String := ""
  monitoring_enabled : Bool := false
  auto_scaling_enabled : Bool := false
  encryption_status : String := ""
  performance_metrics : List (String × ℚ) := []
  associated_resources : List String := []
  termination_protection : Bool := false
  data_transfer_cost : String := ""
  storage_optimization : String := ""
deriving DecidableEq

/-! ### Compliance and risk scorer

Model of calculate_risk_level (main.py lines 287-318).  The additive
score accumulation is kept in source order; the final tier mapping
(lines 312-318) is factored out so it can be analysed on its own. -/

/-- Number of compliance checks in the map whose value is False
(main.py line 309). -/
def countFailedChecks (r : ResourceInfo) : ℕ :=
  (r.compliance_status.filter (fun kv => !kv.2)).length

/-- The additive risk score of calculate_risk_level (lines 289-310).
The public-ip test models Python truthiness of the string field
(non-empty) conjoined with the explicit != N/A comparison. -/
def riskScore (r : ResourceInfo) : ℕ :=
  let s : ℕ := 0
  let s := s + (if r.public_ip ≠ "" ∧ r.public_ip ≠ "N/A" then 3 else 0)
  let s := s + (if strContains r.additional_info "Encrypted: False" then 2 else 0)
  let s := s + (if r.is_unused then 2 else 0)
  let s := s + (if r.environment = "Production" ∧ strContains r.backup_status "No backup" then 3 else 0)
  let s := s + (if r.compliance_status.isEmpty then 0 else countFailedChecks r)
  s

/-- The tier mapping at the end of calculate_risk_level
(lines 312-318). -/
def risk_tier_of_score (score : ℕ) : String :=
  if score ≥ 6 then "High"
  else if score ≥ 3 then "Medium"
  else "Low"

/-- calculate_risk_level (lines 287-318) composed from the two parts. -/
def calculate_risk_level (r : ResourceInfo) : String :=
  risk_tier_of_score (riskScore r)

/-- Numeric rank realising the order Low < Medium < High on tiers. -/
def tier_rank (t : String) : ℕ :=
  if t = "Low" then 0 else if t = "Medium" then 1 else 2

/-! ### Placement into the New and Unused collections

Every family fetcher ends its per-resource loop with the same pair of
appends (for example main.py lines 411-414 for EC2 instances and lines
1235-1238 for elastic IPs, where is_unused is not is_associated):

    if is_new: new_resources.append(resource)
    if is_unused and not is_new: unused_resources.append(resource)

classify_resources folds that step over the descriptors of one scan. -/

def classifyStep (acc : List ResourceInfo × List ResourceInfo) (r : ResourceInfo) :
    List ResourceInfo × List ResourceInfo :=
  let acc1 := if r.is_new then (acc.1 ++ [r], acc.2) else acc
  if r.is_unused && !r.is_new then (acc1.1, acc1.2 ++ [r]) else acc1

def classify_resources (rs : List ResourceInfo) :
    List ResourceInfo × List ResourceInfo :=
  rs.foldl classifyStep ([], [])

lemma classify_go (rs : List ResourceInfo) :
    ∀ a b : List ResourceInfo,
      rs.foldl classifyStep (a, b) =
        (a ++ rs.filter (fun r => r.is_new),
         b ++ rs.filter (fun r => r.is_unused && !r.is_new)) := by
  induction rs with
  | nil => intro a b; simp
  | cons r t ih =>
    intro a b
    by_cases hn : r.is_new <;> by_cases hu : r.is_unused <;>
      simp [classifyStep, hn, hu, List.filter_cons, ih]

/-- C1. A descriptor goes to the New collection iff is_new, to the
Unused collection iff is_unused and not is_new, and the two collections
are disjoint. -/
theorem classification_new_unused_disjoint (rs : List ResourceInfo)
    (r : ResourceInfo) :
    (r ∈ (classify_resources rs).1 ↔ r ∈ rs ∧ r.is_new = true) ∧
    (r ∈ (classify_resources rs).2 ↔
      r ∈ rs ∧ r.is_unused = true ∧ r.is_new = false) ∧
    (r ∈ (classify_resources rs).2 → r ∉ (classify_resources rs).1) := by
  have h := classify_go rs [] []
  unfold classify_resources
  rw [h]
  refine ⟨by simp [List.mem_filter], by simp [List.mem_filter], ?_⟩
  simp only [List.nil_append, List.mem_filter]
  rintro ⟨-, hflag⟩ ⟨-, hnew⟩
  simp [hnew] at hflag

/-- Witness for C1 at a concrete one-element scan: an unused, not-new
descriptor lands in the Unused collection and not in the New one. -/
theorem classification_new_unused_disjoint_witness :
    ({ is_unused := true : ResourceInfo } ∈
        (classify_resources [{ is_unused := true : ResourceInfo }]).2) ∧
    ({ is_unused := true : ResourceInfo } ∉
        (classify_resources [{ is_unused := true : ResourceInfo }]).1) := by
  have h := classification_new_unused_disjoint
    [{ is_unused := true : ResourceInfo }] { is_unused := true : ResourceInfo }
  have hmem := h.2.1.mpr ⟨by simp, rfl, rfl⟩
  exact ⟨hmem, h.2.2 hmem⟩

/-- C2. The tier mapping realises exactly the breakpoints 0-2 Low,
3-5 Medium, 6+ High, and is monotone for Low < Medium < High. -/
theorem risk_tier_breakpoints_monotone (s : ℕ) :
    ((risk_tier_of_score s = "High") ↔ 6 ≤ s) ∧
    ((risk_tier_of_score s = "Medium") ↔ 3 ≤ s ∧ s ≤ 5) ∧
    ((risk_tier_of_score s = "Low") ↔ s ≤ 2) ∧
    (∀ t : ℕ, s ≤ t →
      tier_rank (risk_tier_of_score s) ≤ tier_rank (risk_tier_of_score t)) := by
  refine ⟨?_, ?_, ?_, ?_⟩
  · unfold risk_tier_of_score
    split_ifs with h1 h2 <;> simp <;> omega
  · unfold risk_tier_of_score
    split_ifs with h1 h2 <;> simp <;> omega
  · unfold risk_tier_of_score
    split_ifs with h1 h2 <;> simp <;> omega
  · intro t hst
    by_cases h6 : 6 ≤ s
    · have h6t : 6 ≤ t := le_trans h6 hst
      have e1 : risk_tier_of_score s = "High" := by simp [risk_tier_of_score, h6]
      have e2 : risk_tier_of_score t = "High" := by simp [risk_tier_of_score, h6t]
      rw [e1, e2]
    · by_cases h3 : 3 ≤ s
      · have e1 : risk_tier_of_score s = "Medium" := by
          simp [risk_tier_of_score, h6, h3]
        by_cases h6t : 6 ≤ t
        · have e2 : risk_tier_of_score t = "High" := by
            simp [risk_tier_of_score, h6t]
          rw [e1, e2]; decide
        · have h3t : 3 ≤ t := le_trans h3 hst
          have e2 : risk_tier_of_score t = "Medium" := by
            simp [risk_tier_of_score, h6t, h3t]
          rw [e1, e2]
      · have e1 : risk_tier_of_score s = "Low" := by
          simp [risk_tier_of_score, h6, h3]
        rw [e1]
        have : tier_rank "Low" = 0 := by decide
        rw [this]
        exact Nat.zero_le _

/-- Witness for C2 monotonicity at scores 2 and 7. -/
theorem risk_tier_breakpoints_monotone_witness :
    tier_rank (risk_tier_of_score 2) ≤ tier_rank (risk_tier_of_score 7) :=
  (risk_tier_breakpoints_monotone 2).2.2.2 7 (by decide)

/-- C3. The risk score is the sum of the five documented components:
3 for a public ip, 2 for an unencrypted marker in the additional info,
2 for an unused resource, 3 for a Production resource with no backup,
and 1 per failed compliance check. -/
theorem risk_score_components (r : ResourceInfo) :
    riskScore r =
      (if r.public_ip ≠ "" ∧ r.public_ip ≠ "N/A" then 3 else 0) +
      (if strContains r.additional_info "Encrypted: False" then 2 else 0) +
      (if r.is_unused then 2 else 0) +
      (if r.environment = "Production" ∧ strContains r.backup_status "No backup"
        then 3 else 0) +
      countFailedChecks r := by
  unfold riskScore
  by_cases hc : r.compliance_status.isEmpty
  · have : countFailedChecks r = 0 := by
      unfold countFailedChecks
      simp [List.isEmpty_iff.mp hc]
    simp [hc, this]
  · simp [hc]

/-! ### Usage evaluators

check_ec2_usage (main.py lines 1820-1855), get_metric_sum (lines
1857-1879) and check_rds_usage (lines 559-585).  A CloudWatch call is
an Except value: error when the call raised, ok with its datapoint list
otherwise.  The human-readable summary string is kept structured as
UsageSummary; each constructor renders to exactly one source string. -/

/-- One CPUUtilization datapoint (Statistics Average and Maximum). -/
structure EC2Datapoint where
  average : ℚ
  maximum : ℚ
deriving DecidableEq

/-- One DatabaseConnections datapoint (Statistics Average and Maximum). -/
structure RDSDatapoint where
  average : ℚ
  maximum : ℚ
deriving DecidableEq

/-- Structured form of the usage_info strings the evaluators build:
ec2Metrics renders as the Avg CPU / Max CPU / Network line (1845),
rdsMetrics as the Avg Connections line (576), noMetrics as
"No metrics available" (1851), noConnMetrics as
"No connection metrics available" (581) and unavailable as
"Metrics unavailable" (1855 and 585). -/
inductive UsageSummary where
  | ec2Metrics (avgCpu maxCpu netIn netOut : ℚ)
  | rdsMetrics (avgConn maxConn : ℚ)
  | noMetrics
  | noConnMetrics
  | unavailable
deriving DecidableEq

/-- get_metric_sum (lines 1857-1879): first datapoint Sum divided by
1024*1024, and 0.0 when there are no datapoints or the call raised. -/
def get_metric_sum (resp : Except Unit (List ℚ)) : ℚ :=
  match resp with
  | .error _ => 0
  | .ok [] => 0
  | .ok (d :: _) => d / (1024 * 1024)

/-- check_ec2_usage (lines 1820-1855).  cpuResp is the CPUUtilization
call; netInResp and netOutResp are the NetworkIn and NetworkOut calls
consumed through get_metric_sum. -/
def check_ec2_usage (cpuResp : Except Unit (List EC2Datapoint))
    (netInResp netOutResp : Except Unit (List ℚ)) : UsageSummary × Bool :=
  match cpuResp with
  | .error _ => (.unavailable, false)
  | .ok [] => (.noMetrics, true)
  | .ok (d :: rest) =>
      let dps := d :: rest
      let avg_cpu := (dps.map EC2Datapoint.average).sum / (dps.length : ℚ)
      let max_cpu := rest.foldl (fun a x => max a x.maximum) d.maximum
      let net_in := get_metric_sum netInResp
      let net_out := get_metric_sum netOutResp
      (.ec2Metrics avg_cpu max_cpu net_in net_out,
        decide (avg_cpu < 2) && decide (max_cpu < 10) &&
        decide (net_in < 100) && decide (net_out < 100))

/-- check_rds_usage (lines 559-585): reads Average and Maximum of the
first datapoint only. -/
def check_rds_usage (resp : Except Unit (List RDSDatapoint)) :
    UsageSummary × Bool :=
  match resp with
  | .error _ => (.unavailable, false)
  | .ok [] => (.noConnMetrics, true)
  | .ok (d :: _) =>
      (.rdsMetrics d.average d.maximum,
        decide (d.average < 1) && decide (d.maximum < 5))

/-- C4. With CPU datapoints present, an EC2 instance is unused exactly
when avg CPU < 2, max CPU < 10 and both 7-day network sums are below
100 MB. -/
theorem ec2_unused_iff_thresholds (d : EC2Datapoint)
    (rest : List EC2Datapoint) (netInResp netOutResp : Except Unit (List ℚ)) :
    (check_ec2_usage (Except.ok (d :: rest)) netInResp netOutResp).2 = true ↔
      (((d :: rest).map EC2Datapoint.average).sum / (((d :: rest).length : ℚ)) < 2 ∧
       rest.foldl (fun a x => max a x.maximum) d.maximum < 10 ∧
       get_metric_sum netInResp < 100 ∧
       get_metric_sum netOutResp < 100) := by
  simp [check_ec2_usage, and_assoc]

/-- C5. The degraded defaults of the compute and relational-database
evaluators are asymmetric: zero datapoints yield is_unused = true,
while a raised provider call yields is_unused = false. -/
theorem usage_degraded_defaults_asymmetric :
    (∀ netInResp netOutResp : Except Unit (List ℚ),
      check_ec2_usage (Except.error ()) netInResp netOutResp =
        (UsageSummary.unavailable, false)) ∧
    (∀ netInResp netOutResp : Except Unit (List ℚ),
      check_ec2_usage (Except.ok []) netInResp netOutResp =
        (UsageSummary.noMetrics, true)) ∧
    check_rds_usage (Except.error ()) = (UsageSummary.unavailable, false) ∧
    check_rds_usage (Except.ok []) = (UsageSummary.noConnMetrics, true) :=
  ⟨fun _ _ => rfl, fun _ _ => rfl, rfl, rfl⟩

/-! ### Cost estimators

estimate_ec2_cost (main.py lines 1950-1973) and estimate_rds_cost
(lines 587-607).  The source renders the amounts as display strings;
the amounts themselves are kept structured.  The try/except around
estimate_ec2_cost guards code that cannot raise (a dict lookup with a
default and arithmetic), so the "Cost estimation unavailable" branch is
unreachable and is not modelled. -/

/-- The hardcoded monthly price map of estimate_ec2_cost
(lines 1954-1965). -/
def ec2_cost_map : List (String × ℚ) :=
  [("t2.micro", 8.5), ("t2.small", 17), ("t2.medium", 34), ("t2.large", 68),
   ("t2.xlarge", 136),
   ("t3.micro", 7.6), ("t3.small", 15.2), ("t3.medium", 30.4),
   ("t3.large", 60.8), ("t3.xlarge", 121.6), ("t3.2xlarge", 243.2),
   ("t3a.micro", 6.8), ("t3a.small", 13.6), ("t3a.medium", 27.2),
   ("t3a.large", 54.4),
   ("m5.large", 88), ("m5.xlarge", 176), ("m5.2xlarge", 352),
   ("m5.4xlarge", 704),
   ("m5a.large", 79), ("m5a.xlarge", 158), ("m5a.2xlarge", 316),
   ("m6i.large", 88), ("m6i.xlarge", 176), ("m6i.2xlarge", 352),
   ("c5.large", 78), ("c5.xlarge", 156), ("c5.2xlarge", 312),
   ("c5.4xlarge", 624),
   ("c5a.large", 70), ("c5a.xlarge", 140), ("c5a.2xlarge", 280),
   ("r5.large", 116), ("r5.xlarge", 232), ("r5.2xlarge", 464),
   ("r6i.large", 117), ("r6i.xlarge", 234), ("r6i.2xlarge", 468)]

/-- The three amounts rendered in the estimate_ec2_cost result string
"$h/hr, $d/day, $m/month" (line 1971). -/
structure CostEstimate where
  hourly : ℚ
  daily : ℚ
  monthly : ℚ
deriving DecidableEq

/-- estimate_ec2_cost (lines 1950-1973): table lookup with fallback
100 per month, then the daily and hourly derivations. -/
def estimate_ec2_cost (instance_type : String) : CostEstimate :=
  let monthly_cost := (ec2_cost_map.lookup instance_type).getD 100
  { hourly := monthly_cost / 720
    daily := monthly_cost / 30
    monthly := monthly_cost }

/-- The hardcoded base_costs map of estimate_rds_cost (lines 590-599). -/
def rds_base_costs : List (String × ℚ) :=
  [("db.t3.micro", 15), ("db.t3.small", 30), ("db.t3.medium", 60),
   ("db.t3.large", 120), ("db.m5.large", 200), ("db.m5.xlarge", 400),
   ("db.r5.large", 250), ("db.r5.xlarge", 500)]

/-- The amounts rendered in the estimate_rds_cost result string
"$t/month (instance: $m, storage: ~$s)" (line 607). -/
structure RdsCostEstimate where
  instance_monthly : ℚ
  storage_monthly : ℚ
  total_monthly : ℚ
deriving DecidableEq

/-- estimate_rds_cost (lines 587-607): table lookup with fallback 150,
plus the flat 20 storage estimate.  The engine argument is accepted and
ignored, as in the source. -/
def estimate_rds_cost (instance_class engine : String) : RdsCostEstimate :=
  let monthly_cost := (rds_base_costs.lookup instance_class).getD 150
  let storage_cost : ℚ := 20
  { instance_monthly := monthly_cost
    storage_monthly := storage_cost
    total_monthly := monthly_cost + storage_cost }

/-- C7. The cost estimators are total deterministic functions, and any
input absent from the lookup table yields the documented fallback:
100 per month for an unknown EC2 instance type, 150 plus 20 storage
(170 total) for an unknown RDS instance class. -/
theorem cost_estimator_total_fallback (t c e : String) :
    (∀ t2 : String, t = t2 → estimate_ec2_cost t = estimate_ec2_cost t2) ∧
    (ec2_cost_map.lookup t = none →
      estimate_ec2_cost t = ⟨100 / 720, 100 / 30, 100⟩) ∧
    (rds_base_costs.lookup c = none →
      estimate_rds_cost c e = ⟨150, 20, 170⟩) := by
  refine ⟨fun t2 h => by rw [h], fun h => ?_, fun h => ?_⟩
  · simp [estimate_ec2_cost, h]
  · simp only [estimate_rds_cost, h, Option.getD_none]
    norm_num

/-- Witness for C7 at concrete inputs absent from both tables. -/
theorem cost_estimator_total_fallback_witness :
    estimate_ec2_cost "z9.colossal" = ⟨100 / 720, 100 / 30, 100⟩ ∧
    estimate_rds_cost "db.z9.colossal" "postgres" = ⟨150, 20, 170⟩ :=
  ⟨(cost_estimator_total_fallback "z9.colossal" "db.z9.colossal" "postgres").2.1
      (by decide),
   (cost_estimator_total_fallback "z9.colossal" "db.z9.colossal" "postgres").2.2
      (by decide)⟩

/-! ### Numeric parsing of display strings

The summary aggregation re-parses the estimated_cost display strings
with str.split and float() (main.py lines 1361-1375 and 1439-1445), and
the EC2 advisor re-parses the avg CPU out of usage_info with a regex
(line 253).  digits_val and py_float model float() on the decimal
literals those strings can contain. -/

def digits_val (cs : List Char) : ℕ :=
  cs.foldl (fun a c => a * 10 + (c.toNat - 48)) 0

/-- Model of Python float() on the decimal literals that occur in the
cost and usage strings: optional sign, digits, optional fractional
part.  Exponents, inf/nan and underscore separators never occur in
those strings and are rejected here. -/
def py_float (s : String) : Option ℚ :=
  let fin : ℚ → List Char → Option ℚ := fun sign body =>
    let ip := body.takeWhile Char.isDigit
    let rest := body.dropWhile Char.isDigit
    match rest with
    | [] => if ip.isEmpty then none else some (sign * (digits_val ip : ℚ))
    | '.' :: fp =>
        if fp.all Char.isDigit && !(ip.isEmpty && fp.isEmpty) then
          some (sign * ((digits_val ip : ℚ) +
            (digits_val fp : ℚ) / (10 : ℚ) ^ fp.length))
        else none
    | _ => none
  match s.data with
  | '+' :: body => fin 1 body
  | '-' :: body => fin (-1) body
  | body => fin 1 body

/-- Model of the regex search at main.py line 253: after the first
occurrence of Avg CPU, the digits-and-dots token that follows the first
colon-space must be terminated by a percent sign.  On the strings
check_ec2_usage emits the match always succeeds; a failing match (which
in Python would raise out of the advisor) yields none. -/
def extract_avg_cpu (s : String) : Option ℚ :=
  match s.splitOn "Avg CPU" with
  | _ :: afterCpu :: _ =>
      match afterCpu.splitOn ": " with
      | _ :: cont :: _ =>
          let tok := cont.data.takeWhile (fun c => c.isDigit || c == '.')
          match cont.data.drop tok.length with
          | c :: _ => if c == '%' && !tok.isEmpty then py_float (String.mk tok)
                      else none
          | [] => none
      | _ => none
  | _ => none

/-! ### Optimization advisor

get_cost_optimization_suggestions (main.py lines 246-285).  The
sequential appends are modelled as list concatenation in source order;
the per-type block is factored out as family_branch.  Note that only
the EC2 fetcher routes its descriptors through this function (line
406); the other families build their suggestion lists with dedicated
code (RDS line 546, S3 line 693, Lambda lines 856-861, load balancers
lines 964 and 1034-1036, EBS line 1113, elastic IP line 1231). -/

/-- The universal tagging-hygiene suggestion (line 283). -/
def tagging_suggestion : String :=
  "Add comprehensive tagging for better cost allocation"

/-- The universal savings-amount reminder (line 280), built from the
resource estimated cost. -/
def savings_suggestion (cost : String) : String :=
  "Resource unused - potential savings: " ++ cost

/-- The avg-CPU sub-branch of the EC2 block (lines 252-257). -/
def ec2_cpu_branch (r : ResourceInfo) : List String :=
  match extract_avg_cpu r.usage_info with
  | some avg_cpu =>
      if avg_cpu < 5 then
        ["Consider downsizing instance or using Spot/Savings Plans"]
      else if avg_cpu < 20 then
        ["Instance appears underutilized - review sizing"]
      else []
  | none => []

/-- The resource-type-specific block of
get_cost_optimization_suggestions (lines 250-276). -/
def family_branch (r : ResourceInfo) : List String :=
  if r.resource_type = "EC2 Instance" then
    ec2_cpu_branch r
    ++ (if ["t2", "m3", "m4", "c3", "c4"].any
            (fun p => p.isPrefixOf r.instance_type) then
          ["Migrate to newer generation instances for better price/performance"]
        else [])
    ++ (if r.environment = "Production" ∧ r.state = "running" then
          ["Consider Reserved Instances or Savings Plans for production workloads"]
        else [])
  else if r.resource_type = "EBS Volume" then
    (if strContains r.usage_info "gp2" then
        ["Convert gp2 volumes to gp3 for 20% cost savings"]
      else [])
    ++ (if r.is_unused then ["Create snapshot and delete unused volume"] else [])
  else if strContains r.resource_type "Load Balancer" then
    (if r.is_unused then ["Delete unused load balancer to save $16-20/month"]
      else [])
  else []

/-- get_cost_optimization_suggestions (lines 246-285): the family block
followed by the two universal appends (lines 279-283). -/
def get_cost_optimization_suggestions (r : ResourceInfo) : List String :=
  family_branch r
  ++ (if r.is_unused then [savings_suggestion r.estimated_cost] else [])
  ++ (if r.tags = [] ∨ r.tags.length < 3 then [tagging_suggestion] else [])

/-- The suggestion generation of the Lambda fetcher
(main.py lines 856-861): two appends driven by the usage verdict and
the memory size.  The descriptor tags and estimated cost do not feed
this code at all. -/
def lambda_suggestions (is_unused : Bool) (memory : ℤ) : List String :=
  (if is_unused then ["Delete unused Lambda function"] else [])
  ++ (if memory > 1024 then
        ["Review memory allocation - may be over-provisioned"]
      else [])

/-! ### EBS volume advisor

get_ebs_optimization_suggestions (main.py lines 1147-1171), over the
volume attributes the source reads from the describe_volumes record. -/

structure EBSVolume where
  volumeType : String
  size : ℤ
  iops : Option ℤ
  encrypted : Bool
deriving DecidableEq

/-- get_ebs_optimization_suggestions (lines 1147-1171): five
conditional appends in source order.  iops.getD 0 models
volume.get(Iops, 0) and encrypted models the truthiness of
volume.get(Encrypted). -/
def get_ebs_optimization_suggestions (volume : EBSVolume) (is_attached : Bool) :
    List String :=
  (if volume.volumeType = "gp2" then
      ["Migrate from gp2 to gp3 for 20% cost savings and better performance"]
    else [])
  ++ (if is_attached = false then
        ["Create snapshot and delete unattached volume to save costs"]
      else [])
  ++ (if (volume.volumeType = "io1" ∨ volume.volumeType = "io2") ∧
          volume.iops.getD 0 > 10000 then
        ["Review IOPS requirements - may be over-provisioned"]
      else [])
  ++ (if volume.size > 500 then
        ["Review large volume usage - consider archiving old data"]
      else [])
  ++ (if volume.encrypted = false then
        ["Enable encryption for compliance and security"]
      else [])

/-! ### Lambda is_new computation

The Lambda fetcher (main.py lines 817-819) derives is_new from the
LastModified timestamp of the function record; no creation time is
fetched or consulted.  Timestamps are modelled as integers. -/

structure LambdaFunctionInfo where
  functionName : String
  lastModified : ℤ
  memorySize : ℤ
  timeout : ℤ
deriving DecidableEq

/-- Line 819: is_new = last_modified >= cutoff_time. -/
def lambda_is_new (cutoff : ℤ) (f : LambdaFunctionInfo) : Bool :=
  decide (f.lastModified ≥ cutoff)

/-! ### Summary aggregation of cost strings

The cost-string parse shared by send_to_google_sheets (lines 1357-1375)
and send_slack_notification (lines 1439-1445), and the two running
totals it feeds. -/

/-- The parse of one estimated_cost display string: guarded by the two
substring tests, then split at the first dollar sign, at /month, at the
first space, commas removed, and converted with float().  Any failure
(a float() that raises inside the try block) yields none, which the
aggregation skips. -/
def parse_monthly_cost (cost : String) : Option ℚ :=
  if strContains cost "$" && strContains cost "month" then
    match cost.splitOn "$" with
    | _ :: part :: _ =>
        let cost_str := (((part.splitOn "/month").headD "").splitOn " ").headD ""
        py_float (cost_str.replace "," "")
    | _ => none
  else none

/-- One iteration of the aggregation loops: add the parsed amount, or
keep the total unchanged when the parse fails (the except: pass). -/
def addParsedCost (acc : ℚ) (r : ResourceInfo) : ℚ :=
  match parse_monthly_cost r.estimated_cost with
  | some v => acc + v
  | none => acc

/-- total_monthly_savings (lines 1358-1367 and 1437-1445): summed over
the Unused collection. -/
def total_monthly_savings (unused_resources : List ResourceInfo) : ℚ :=
  unused_resources.foldl addParsedCost 0

/-- total_monthly_cost (lines 1369-1375): summed over the concatenation
of the New and Unused collections. -/
def total_monthly_cost (new_resources unused_resources : List ResourceInfo) : ℚ :=
  (new_resources ++ unused_resources).foldl addParsedCost 0

/-! ### Theorems about the advisors -/

lemma mem_ite_singleton {c : Prop} [Decidable c] {a x : String}
    (h : a ∈ if c then [x] else ([] : List String)) : a = x := by
  split at h <;> simp_all

lemma tagging_ne_savings (cost : String) :
    savings_suggestion cost ≠ tagging_suggestion := by
  intro h
  have h1 : (savings_suggestion cost).data.head? =
      (tagging_suggestion).data.head? := by rw [h]
  have h2 : (savings_suggestion cost).data.head? = some 'R' := rfl
  have h3 : (tagging_suggestion).data.head? = some 'A' := rfl
  rw [h2, h3] at h1
  simp at h1

lemma tagging_not_mem_ec2_cpu (r : ResourceInfo) :
    tagging_suggestion ∉ ec2_cpu_branch r := by
  intro h
  rcases hE : extract_avg_cpu r.usage_info with _ | a
  · simp [ec2_cpu_branch, hE] at h
  · simp only [ec2_cpu_branch, hE] at h
    rcases lt_or_ge a 5 with h5 | h5
    · rw [if_pos h5] at h
      exact absurd (List.mem_singleton.mp h) (by decide)
    · rw [if_neg (not_lt.mpr h5)] at h
      rcases lt_or_ge a 20 with h20 | h20
      · rw [if_pos h20] at h
        exact absurd (List.mem_singleton.mp h) (by decide)
      · rw [if_neg (not_lt.mpr h20)] at h
        simp at h

lemma tagging_not_mem_family (r : ResourceInfo) :
    tagging_suggestion ∉ family_branch r := by
  unfold family_branch
  by_cases hec2 : r.resource_type = "EC2 Instance"
  · rw [if_pos hec2]
    intro h
    simp only [List.mem_append] at h
    rcases h with (h | h) | h
    · exact tagging_not_mem_ec2_cpu r h
    · exact absurd (mem_ite_singleton h) (by decide)
    · exact absurd (mem_ite_singleton h) (by decide)
  · rw [if_neg hec2]
    by_cases hebs : r.resource_type = "EBS Volume"
    · rw [if_pos hebs]
      intro h
      simp only [List.mem_append] at h
      rcases h with h | h
      · exact absurd (mem_ite_singleton h) (by decide)
      · exact absurd (mem_ite_singleton h) (by decide)
    · rw [if_neg hebs]
      by_cases hlb : strContains r.resource_type "Load Balancer" = true
      · rw [if_pos hlb]
        intro h
        exact absurd (mem_ite_singleton h) (by decide)
      · rw [if_neg hlb]
        simp

/-- C6 (amended). For every descriptor routed through the generic
advisor get_cost_optimization_suggestions: if it is unused its
suggestion list contains the savings-amount reminder built from its own
estimated cost, and it contains the tagging-hygiene suggestion exactly
when it carries fewer than 3 tags. -/
theorem generic_advisor_universal_suggestions (r : ResourceInfo) :
    (r.is_unused = true →
      savings_suggestion r.estimated_cost ∈ get_cost_optimization_suggestions r) ∧
    (tagging_suggestion ∈ get_cost_optimization_suggestions r ↔
      r.tags.length < 3) := by
  constructor
  · intro h
    simp [get_cost_optimization_suggestions, h, List.mem_append]
  · constructor
    · intro hmem
      by_contra hlen
      have hcond : ¬(r.tags = [] ∨ r.tags.length < 3) := by
        rintro (h | h)
        · exact hlen (by simp [h])
        · exact hlen h
      have htag :
          (if r.tags = [] ∨ r.tags.length < 3 then [tagging_suggestion]
            else ([] : List String)) = [] := if_neg hcond
      unfold get_cost_optimization_suggestions at hmem
      rw [htag, List.append_nil, List.mem_append] at hmem
      rcases hmem with h | h
      · exact tagging_not_mem_family r h
      · exact tagging_ne_savings r.estimated_cost (mem_ite_singleton h).symm
    · intro hlen
      have hcond : r.tags = [] ∨ r.tags.length < 3 := Or.inr hlen
      unfold get_cost_optimization_suggestions
      rw [if_pos hcond]
      simp [List.mem_append]

/-- Witness for C6 (amended) at a concrete unused descriptor with two
tags. -/
theorem generic_advisor_universal_suggestions_witness :
    (savings_suggestion "$8.50/month" ∈ get_cost_optimization_suggestions
      { resource_type := "EC2 Instance", is_unused := true,
        estimated_cost := "$8.50/month",
        tags := [("Name", "a"), ("Owner", "b")] }) ∧
    (tagging_suggestion ∈ get_cost_optimization_suggestions
      { resource_type := "EC2 Instance", is_unused := true,
        estimated_cost := "$8.50/month",
        tags := [("Name", "a"), ("Owner", "b")] }) :=
  ⟨(generic_advisor_universal_suggestions _).1 rfl,
   (generic_advisor_universal_suggestions
      { resource_type := "EC2 Instance", is_unused := true,
        estimated_cost := "$8.50/month",
        tags := [("Name", "a"), ("Owner", "b")] }).2.mpr (by decide)⟩

/-- Counterexample for C6 as stated: an unused Lambda function with no
tags (memory 128) receives the suggestion list built at main.py lines
856-861, which contains neither the tagging-hygiene suggestion nor the
savings-amount reminder built from its cost string. -/
theorem universal_suggestions_not_universal_cex :
    tagging_suggestion ∉ lambda_suggestions true 128 ∧
    savings_suggestion "$0.0042/month (est. 1K invocations)" ∉
      lambda_suggestions true 128 := by
  constructor <;> decide

/-- C8. A gp2, unattached, unencrypted volume receives the tier-upgrade,
snapshot-and-delete and enable-encryption suggestions, whatever its
size and IOPS. -/
theorem gp2_unattached_unencrypted_three_suggestions (v : EBSVolume)
    (att : Bool) (h1 : v.volumeType = "gp2") (h2 : att = false)
    (h3 : v.encrypted = false) :
    "Migrate from gp2 to gp3 for 20% cost savings and better performance" ∈
      get_ebs_optimization_suggestions v att ∧
    "Create snapshot and delete unattached volume to save costs" ∈
      get_ebs_optimization_suggestions v att ∧
    "Enable encryption for compliance and security" ∈
      get_ebs_optimization_suggestions v att := by
  refine ⟨?_, ?_, ?_⟩ <;>
    simp [get_ebs_optimization_suggestions, h1, h2, h3, List.mem_append]

/-- Witness for C8 at a concrete 100GB gp2 volume. -/
theorem gp2_unattached_unencrypted_three_suggestions_witness :
    "Migrate from gp2 to gp3 for 20% cost savings and better performance" ∈
      get_ebs_optimization_suggestions ⟨"gp2", 100, some 300, false⟩ false ∧
    "Create snapshot and delete unattached volume to save costs" ∈
      get_ebs_optimization_suggestions ⟨"gp2", 100, some 300, false⟩ false ∧
    "Enable encryption for compliance and security" ∈
      get_ebs_optimization_suggestions ⟨"gp2", 100, some 300, false⟩ false :=
  gp2_unattached_unencrypted_three_suggestions
    ⟨"gp2", 100, some 300, false⟩ false rfl rfl rfl

/-- C10. The Lambda is_new flag is a function of the last-modified
timestamp alone: any function modified inside the lookback window is
new regardless of when it was created, any function whose last
modification (for a never-modified function, its creation) predates the
window is not new, and two records agreeing on last-modified get the
same flag. -/
theorem lambda_is_new_uses_last_modified (cutoff : ℤ)
    (f g : LambdaFunctionInfo) :
    (cutoff ≤ f.lastModified → lambda_is_new cutoff f = true) ∧
    (f.lastModified < cutoff → lambda_is_new cutoff f = false) ∧
    (f.lastModified = g.lastModified →
      lambda_is_new cutoff f = lambda_is_new cutoff g) := by
  unfold lambda_is_new
  refine ⟨fun h => by simp [ge_iff_le, h], fun h => by simp [ge_iff_le]; omega,
    fun h => by rw [h]⟩

/-- Witness for C10: a function last modified at time 100 is new for a
cutoff of 50 and not new for a cutoff of 200, independent of every
other attribute. -/
theorem lambda_is_new_uses_last_modified_witness :
    lambda_is_new 50 ⟨"report-generator", 100, 128, 3⟩ = true ∧
    lambda_is_new 200 ⟨"report-generator", 100, 128, 3⟩ = false :=
  ⟨(lambda_is_new_uses_last_modified 50 ⟨"report-generator", 100, 128, 3⟩
      ⟨"report-generator", 100, 128, 3⟩).1 (by decide),
   (lambda_is_new_uses_last_modified 200 ⟨"report-generator", 100, 128, 3⟩
      ⟨"report-generator", 100, 128, 3⟩).2.1 (by decide)⟩

/-! ### Theorems about the summary aggregation -/

lemma foldl_addParsedCost (rs : List ResourceInfo) :
    ∀ a : ℚ, rs.foldl addParsedCost a =
      a + (rs.filterMap (fun r => parse_monthly_cost r.estimated_cost)).sum := by
  induction rs with
  | nil => intro a; simp
  | cons r t ih =>
      intro a
      cases h : parse_monthly_cost r.estimated_cost with
      | none => simp [addParsedCost, h, ih, List.filterMap_cons]
      | some v =>
          simp [addParsedCost, h, ih, List.filterMap_cons]
          ring

/-- C9. A descriptor whose estimated-cost string does not parse as a
dollar monthly amount contributes nothing to either running total, and
each total equals the sum of the amounts of the parseable descriptors;
the aggregation is a total function, so it never raises. -/
theorem aggregation_skips_unparseable (new_resources unused_resources :
    List ResourceInfo) (r : ResourceInfo)
    (h : parse_monthly_cost r.estimated_cost = none) :
    total_monthly_savings (unused_resources ++ [r]) =
      total_monthly_savings unused_resources ∧
    total_monthly_cost new_resources (unused_resources ++ [r]) =
      total_monthly_cost new_resources unused_resources ∧
    total_monthly_savings unused_resources =
      (unused_resources.filterMap
        (fun x => parse_monthly_cost x.estimated_cost)).sum := by
  unfold total_monthly_savings total_monthly_cost
  rw [foldl_addParsedCost, foldl_addParsedCost, foldl_addParsedCost,
    foldl_addParsedCost]
  simp [List.filterMap_append, h]

/-- Witness for C9: a descriptor carrying the unparseable string
"Cost estimation unavailable" leaves the savings total unchanged. -/
theorem aggregation_skips_unparseable_witness :
    total_monthly_savings
      ([{ estimated_cost := "$3.60/month" : ResourceInfo }] ++
        [{ estimated_cost := "Cost estimation unavailable" : ResourceInfo }]) =
    total_monthly_savings
      [{ estimated_cost := "$3.60/month" : ResourceInfo }] :=
  (aggregation_skips_unparseable []
    [{ estimated_cost := "$3.60/month" : ResourceInfo }]
    { estimated_cost := "Cost estimation unavailable" : ResourceInfo }
    (by decide)).1
